import Mathlib

/-!
# Verification of the helpdesk ticketing backend

A shallow embedding of the ticket lifecycle engine and of the reporting
aggregator of the helpdesk-system repository, together with proofs about
the embedded operations.

Conventions of the embedding:

* The transactional store (Postgres reached through drizzle) is a
  `Store` record holding the three tables as lists in insertion order.
* `db.select().where(...)` followed by `rows[0]` is `List.find?`.
* Timestamps (`timestamp` columns and JavaScript `Date` values) are
  modelled as `Int` minutes on a single clock; `new Date()` becomes an
  explicit `now` parameter.  The civil-calendar arithmetic used by the
  reports handler is modelled by a proleptic Gregorian day count.
* Nullable columns are `Option`; a field of an input object that may
  also be absent (`undefined`) gets one more `Option` layer.
* Each mutating handler returns the list of primitive store writes it
  issued (one element per SQL statement that ran) plus its returned
  value or thrown error.  The statements of one handler run one after
  the other without a wrapping transaction, exactly as in the source,
  so applying a proper prefix of the write list is the state left
  behind when a later statement fails.
* The serial primary key of `ticket_history` is not modelled: no
  handler and no claim ever reads it.  Ticket ids are modelled, and the
  id a fresh insert receives is one above the largest id present.
-/

/-- Enum `user_role` of db/schema. -/
inductive UserRole where
  | CS
  | TSO
  | NOC
deriving DecidableEq, Repr

/-- String stored in the `user_role` Postgres enum column. -/
def UserRole.toDb : UserRole → String
  | .CS => "CS"
  | .TSO => "TSO"
  | .NOC => "NOC"

/-- Check `validRoles.includes(targetTeam)` of the transfer handler,
packaged as a parse: `some` exactly when the raw string is one of CS, TSO,
NOC. -/
def UserRole.fromDb : String → Option UserRole
  | "CS" => some .CS
  | "TSO" => some .TSO
  | "NOC" => some .NOC
  | _ => none

/-- Enum `customer_category` of db/schema. -/
inductive CustomerCategory where
  | broadband
  | dedicated
  | reseller
deriving DecidableEq, Repr

/-- String stored in the `customer_category` enum column. -/
def CustomerCategory.toDb : CustomerCategory → String
  | .broadband => "broadband"
  | .dedicated => "dedicated"
  | .reseller => "reseller"

/-- Enum `ticket_status` of db/schema. -/
inductive TicketStatus where
  | New
  | InProgress
  | Pending
  | Cancel
  | Solved
deriving DecidableEq, Repr

/-- String stored in the `ticket_status` enum column. -/
def TicketStatus.toDb : TicketStatus → String
  | .New => "New"
  | .InProgress => "In Progress"
  | .Pending => "Pending"
  | .Cancel => "Cancel"
  | .Solved => "Solved"

/-- Enum `issue_priority` of db/schema. -/
inductive IssuePriority where
  | Low
  | Medium
  | High
  | Critical
deriving DecidableEq, Repr

/-- String stored in the `issue_priority` enum column. -/
def IssuePriority.toDb : IssuePriority → String
  | .Low => "Low"
  | .Medium => "Medium"
  | .High => "High"
  | .Critical => "Critical"

/-- Row of the `users` table. -/
structure User where
  id : Nat
  username : String
  email : String
  full_name : String
  role : UserRole
  is_active : Bool
  created_at : Int
  updated_at : Int
deriving DecidableEq, Repr

/-- Row of the `complaint_tickets` table. -/
structure Ticket where
  id : Nat
  customer_id : String
  customer_name : String
  customer_address : String
  customer_category : CustomerCategory
  issue_description : String
  issue_priority : IssuePriority
  status : TicketStatus
  created_by : Nat
  assigned_to : Option Nat
  assigned_team : Option UserRole
  resolution_notes : Option String
  created_at : Int
  updated_at : Int
  resolved_at : Option Int
deriving DecidableEq, Repr

/-- Row of the `ticket_history` table (its serial id is never read by any
handler and is not modelled). -/
structure HistoryRow where
  ticket_id : Nat
  action : String
  previous_value : Option String
  new_value : Option String
  performed_by : Nat
  notes : Option String
  created_at : Int
deriving DecidableEq, Repr

/-- The three tables, each in insertion order. -/
structure Store where
  users : List User
  tickets : List Ticket
  history : List HistoryRow
deriving DecidableEq, Repr

/-- Fresh serial id for a ticket insert: one above the largest present id. -/
def nextTicketId (s : Store) : Nat :=
  (s.tickets.map Ticket.id).foldr max 0 + 1

/-- The SET object of a drizzle `db.update(complaintTicketsTable)` call:
each field is `some v` when the corresponding key was placed in the update
object. -/
structure StagedFields where
  customer_id : Option String := none
  customer_name : Option String := none
  customer_address : Option String := none
  customer_category : Option CustomerCategory := none
  issue_description : Option String := none
  issue_priority : Option IssuePriority := none
  status : Option TicketStatus := none
  assigned_to : Option (Option Nat) := none
  assigned_team : Option (Option UserRole) := none
  resolution_notes : Option (Option String) := none
  resolved_at : Option (Option Int) := none
  updated_at : Option Int := none
deriving DecidableEq, Repr

/-- Effect of an UPDATE row write on one ticket row. -/
def applyStaged (t : Ticket) (f : StagedFields) : Ticket :=
  { t with
    customer_id := f.customer_id.getD t.customer_id
    customer_name := f.customer_name.getD t.customer_name
    customer_address := f.customer_address.getD t.customer_address
    customer_category := f.customer_category.getD t.customer_category
    issue_description := f.issue_description.getD t.issue_description
    issue_priority := f.issue_priority.getD t.issue_priority
    status := f.status.getD t.status
    assigned_to := f.assigned_to.getD t.assigned_to
    assigned_team := f.assigned_team.getD t.assigned_team
    resolution_notes := f.resolution_notes.getD t.resolution_notes
    resolved_at := f.resolved_at.getD t.resolved_at
    updated_at := f.updated_at.getD t.updated_at }

/-- One SQL statement issued by a handler. -/
inductive Write where
  | insertTicket (t : Ticket)
  | updateTicket (id : Nat) (fields : StagedFields)
  | insertHistory (rows : List HistoryRow)
deriving DecidableEq, Repr

/-- Effect of one statement on the store. -/
def applyWrite (s : Store) : Write → Store
  | .insertTicket t => { s with tickets := s.tickets ++ [t] }
  | .updateTicket id f =>
      { s with tickets := s.tickets.map fun t => if t.id = id then applyStaged t f else t }
  | .insertHistory rows => { s with history := s.history ++ rows }

/-- Effect of a sequence of statements, first to last. -/
def applyWrites (s : Store) (ws : List Write) : Store :=
  ws.foldl applyWrite s

/-- Errors thrown by the handlers: each constructor is one throw site of the
source, or the rejection the database itself produces. -/
inductive Err where
  /-- Message `User with ID x not found`. -/
  | userNotFound (id : Nat)
  /-- Message `User with ID x is not active` (create path). -/
  | userNotActive (id : Nat)
  /-- Message `User with ID x does not exist or is not active` (update path). -/
  | userNotActiveOrMissing (id : Nat)
  /-- Message `Ticket with ID x not found`. -/
  | ticketNotFound (id : Nat)
  /-- Message `Active user with ID x and role r not found` (assign path). -/
  | invalidAssignment (id : Nat) (team : UserRole)
  /-- Message `Invalid target team: s` (transfer path). -/
  | invalidTeam (team : String)
  /-- Rejection by the `assigned_to references users.id` foreign key of
  db/schema when a row write stores a user id that matches no users row. -/
  | fkViolationAssignedTo (id : Nat)
deriving DecidableEq, Repr

/-- Decidable equality of handler outcomes. -/
instance {e a : Type} [DecidableEq e] [DecidableEq a] : DecidableEq (Except e a) := fun x y =>
  match x, y with
  | .error u, .error v => decidable_of_iff (u = v) (by simp)
  | .error _, .ok _ => isFalse (by simp)
  | .ok _, .error _ => isFalse (by simp)
  | .ok u, .ok v => decidable_of_iff (u = v) (by simp)

/-- Result of running a mutating handler: the SQL statements it issued, in
order, and the value it returned (`Except.error` is a thrown error; for the
handlers typed `ComplaintTicket | null`, `ok none` is a returned null). -/
structure HandlerRun (ρ : Type) where
  writes : List Write
  ret : Except Err ρ
deriving Repr

/-- History rows inserted during a run. -/
def HandlerRun.historyRows {ρ : Type} (r : HandlerRun ρ) : List HistoryRow :=
  r.writes.foldr (fun w acc => match w with | .insertHistory rows => rows ++ acc | _ => acc) []

/-- Store left behind by a completed (fault-free) run. -/
def HandlerRun.final {ρ : Type} (r : HandlerRun ρ) (s : Store) : Store :=
  applyWrites s r.writes

/-- JavaScript truthiness of a nullable numeric column: null and 0 are
falsy. -/
def jsTruthyNat : Option Nat → Bool
  | none => false
  | some n => n != 0

/-- String interpolation of a nullable number (null prints as "null"). -/
def jsShowNat : Option Nat → String
  | none => "null"
  | some n => toString n

/-- String interpolation of a nullable team column. -/
def jsShowTeam : Option UserRole → String
  | none => "null"
  | some r => r.toDb

/-- Coercion `v?.toString() || null` applied to a string: the empty string
is falsy and collapses to null. -/
def jsStrOrNull (s : String) : Option String :=
  if s = "" then none else some s

/-- Model of the JavaScript `toLowerCase()` applied to the ASCII display
names: lower-case each character. -/
def jsToLower (s : String) : String :=
  ⟨s.data.map Char.toLower⟩

/-- Input of `createComplaintTicket` (createComplaintTicketInputSchema). -/
structure CreateTicketInput where
  customer_id : String
  customer_name : String
  customer_address : String
  customer_category : CustomerCategory
  issue_description : String
  issue_priority : IssuePriority
  created_by : Nat
deriving DecidableEq, Repr

/-- Handler `createComplaintTicket` of src (part_004): validates an active
creator, inserts the ticket row, then inserts the created history row as a
second, separate statement. -/
def createComplaintTicket (s : Store) (now : Int) (input : CreateTicketInput) :
    HandlerRun Ticket :=
  match s.users.find? (fun u => u.id == input.created_by) with
  | none => ⟨[], .error (.userNotFound input.created_by)⟩
  | some creator =>
    if !creator.is_active then
      ⟨[], .error (.userNotActive input.created_by)⟩
    else
      let t : Ticket :=
        { id := nextTicketId s
          customer_id := input.customer_id
          customer_name := input.customer_name
          customer_address := input.customer_address
          customer_category := input.customer_category
          issue_description := input.issue_description
          issue_priority := input.issue_priority
          status := .New
          created_by := input.created_by
          assigned_to := none
          assigned_team := none
          resolution_notes := none
          created_at := now
          updated_at := now
          resolved_at := none }
      let h : HistoryRow :=
        { ticket_id := t.id
          action := "created"
          previous_value := none
          new_value := some "New"
          performed_by := input.created_by
          notes := some ("Ticket created by " ++ creator.username)
          created_at := now }
      ⟨[.insertTicket t, .insertHistory [h]], .ok t⟩

/-- Input of `updateComplaintTicket` (updateComplaintTicketInputSchema):
every field except the id is optional, and the nullable columns may also be
set to null explicitly. -/
structure UpdateTicketInput where
  id : Nat
  customer_id : Option String := none
  customer_name : Option String := none
  customer_address : Option String := none
  customer_category : Option CustomerCategory := none
  issue_description : Option String := none
  issue_priority : Option IssuePriority := none
  status : Option TicketStatus := none
  assigned_to : Option (Option Nat) := none
  assigned_team : Option (Option UserRole) := none
  resolution_notes : Option (Option String) := none
deriving DecidableEq, Repr

/-- Guard of `trackChange`:
`newValue !== undefined && oldValue !== newValue`. -/
def changedField {α : Type} [DecidableEq α] (old : α) (newVal : Option α) : Bool :=
  match newVal with
  | none => false
  | some v => v != old

/-- Value `trackChange` stages into `updateFields` (the supplied value when
it differs, nothing otherwise). -/
def stagedField {α : Type} [DecidableEq α] (old : α) (newVal : Option α) : Option α :=
  match newVal with
  | none => none
  | some v => if v = old then none else some v

/-- Coercion of a supplied (non-undefined) value for the history row, given
the per-type rendering of a present value. -/
def suppliedCoerce {α : Type} (coe : α → Option String) : Option α → Option String
  | none => none
  | some v => coe v

/-- History row `trackChange` pushes for one differing field.  `oldS` and
`newS` are the already-coerced `oldValue?.toString() || null` and
`newValue?.toString() || null` strings.  The performer is the hardcoded
user id 1 of the source. -/
def trackRow (changed : Bool) (tid : Nat) (display : String)
    (oldS newS : Option String) (now : Int) : List HistoryRow :=
  if changed then
    [{ ticket_id := tid
       action := jsToLower display ++ "_changed"
       previous_value := oldS
       new_value := newS
       performed_by := 1
       notes := some (display ++ " updated")
       created_at := now }]
  else []

/-- Staged row update of `updateComplaintTicket`: the ten `trackChange`
stagings, in source order. -/
def updateBaseStaged (cur : Ticket) (input : UpdateTicketInput) : StagedFields :=
  { customer_id := stagedField cur.customer_id input.customer_id
    customer_name := stagedField cur.customer_name input.customer_name
    customer_address := stagedField cur.customer_address input.customer_address
    customer_category := stagedField cur.customer_category input.customer_category
    issue_description := stagedField cur.issue_description input.issue_description
    issue_priority := stagedField cur.issue_priority input.issue_priority
    status := stagedField cur.status input.status
    assigned_to := stagedField cur.assigned_to input.assigned_to
    assigned_team := stagedField cur.assigned_team input.assigned_team
    resolution_notes := stagedField cur.resolution_notes input.resolution_notes }

/-- History rows of `updateComplaintTicket`: the ten `trackChange` pushes,
in source order. -/
def updateHistoryRows (cur : Ticket) (input : UpdateTicketInput) (now : Int) :
    List HistoryRow :=
  trackRow (changedField cur.customer_id input.customer_id) input.id
    "Customer ID" (jsStrOrNull cur.customer_id)
    (suppliedCoerce jsStrOrNull input.customer_id) now ++
  trackRow (changedField cur.customer_name input.customer_name) input.id
    "Customer Name" (jsStrOrNull cur.customer_name)
    (suppliedCoerce jsStrOrNull input.customer_name) now ++
  trackRow (changedField cur.customer_address input.customer_address) input.id
    "Customer Address" (jsStrOrNull cur.customer_address)
    (suppliedCoerce jsStrOrNull input.customer_address) now ++
  trackRow (changedField cur.customer_category input.customer_category) input.id
    "Customer Category" (jsStrOrNull cur.customer_category.toDb)
    (suppliedCoerce (fun c => jsStrOrNull c.toDb) input.customer_category) now ++
  trackRow (changedField cur.issue_description input.issue_description) input.id
    "Issue Description" (jsStrOrNull cur.issue_description)
    (suppliedCoerce jsStrOrNull input.issue_description) now ++
  trackRow (changedField cur.issue_priority input.issue_priority) input.id
    "Issue Priority" (jsStrOrNull cur.issue_priority.toDb)
    (suppliedCoerce (fun p => jsStrOrNull p.toDb) input.issue_priority) now ++
  trackRow (changedField cur.status input.status) input.id
    "Status" (jsStrOrNull cur.status.toDb)
    (suppliedCoerce (fun st => jsStrOrNull st.toDb) input.status) now ++
  trackRow (changedField cur.assigned_to input.assigned_to) input.id
    "Assigned To" (cur.assigned_to.bind (fun n => jsStrOrNull (toString n)))
    (suppliedCoerce (fun o => o.bind (fun n => jsStrOrNull (toString n))) input.assigned_to) now ++
  trackRow (changedField cur.assigned_team input.assigned_team) input.id
    "Assigned Team" (cur.assigned_team.bind (fun r => jsStrOrNull r.toDb))
    (suppliedCoerce (fun o => o.bind (fun r => jsStrOrNull r.toDb)) input.assigned_team) now ++
  trackRow (changedField cur.resolution_notes input.resolution_notes) input.id
    "Resolution Notes" (cur.resolution_notes.bind jsStrOrNull)
    (suppliedCoerce (fun o => o.bind jsStrOrNull) input.resolution_notes) now

/-- Check `Object.keys(updateFields).length === 0` taken just after the ten
`trackChange` calls (resolved_at and updated_at are only added later). -/
def updateAnyChanged (base : StagedFields) : Bool :=
  base.customer_id.isSome || base.customer_name.isSome ||
  base.customer_address.isSome || base.customer_category.isSome ||
  base.issue_description.isSome || base.issue_priority.isSome ||
  base.status.isSome || base.assigned_to.isSome ||
  base.assigned_team.isSome || base.resolution_notes.isSome

/-- Resolved-at bookkeeping and updated_at refresh of
`updateComplaintTicket`, applied once at least one field differs. -/
def updateFinalStaged (cur : Ticket) (input : UpdateTicketInput) (now : Int) :
    StagedFields :=
  let base := updateBaseStaged cur input
  let withResolved : StagedFields :=
    if input.status = some .Solved ∧ cur.status ≠ .Solved then
      { base with resolved_at := some (some now) }
    else if input.status ≠ none ∧ input.status ≠ some .Solved ∧
        cur.status = .Solved then
      { base with resolved_at := some none }
    else base
  { withResolved with updated_at := some now }

/-- Diff-and-write tail of `updateComplaintTicket`, after the existence and
assignee validations have passed. -/
def updateTicketDiff (now : Int) (input : UpdateTicketInput)
    (cur : Ticket) : HandlerRun (Option Ticket) :=
  let base := updateBaseStaged cur input
  let entries := updateHistoryRows cur input now
  if updateAnyChanged base = false then
    ⟨[], .ok (some cur)⟩
  else
    let staged := updateFinalStaged cur input now
    ⟨[.updateTicket input.id staged] ++
        (if entries.isEmpty then [] else [.insertHistory entries]),
      .ok (some (applyStaged cur staged))⟩

/-- Handler `updateComplaintTicket` of
src/server/src/handlers/update_complaint_ticket.ts. -/
def updateComplaintTicket (s : Store) (now : Int) (input : UpdateTicketInput) :
    HandlerRun (Option Ticket) :=
  match s.tickets.find? (fun t => t.id == input.id) with
  | none => ⟨[], .ok none⟩
  | some cur =>
    -- `if (updateData.assigned_to !== undefined && updateData.assigned_to !== null)`
    match input.assigned_to with
    | some (some uid) =>
      if (s.users.find? (fun u => u.id == uid && u.is_active)).isNone then
        ⟨[], .error (.userNotActiveOrMissing uid)⟩
      else
        updateTicketDiff now input cur
    | _ => updateTicketDiff now input cur

/-- Input of `assignTicket` (assignTicketInputSchema). -/
structure AssignTicketInput where
  ticket_id : Nat
  assigned_to : Option Nat
  assigned_team : UserRole
  assigned_by : Nat
deriving DecidableEq, Repr

/-- Ternary `previousAssignment` shared by the assign and transfer handlers
(the source spells the identical expression twice). -/
def priorAssignment (t : Ticket) : Option String :=
  if jsTruthyNat t.assigned_to then
    some ("User ID: " ++ jsShowNat t.assigned_to ++ ", Team: " ++ jsShowTeam t.assigned_team)
  else if t.assigned_team.isSome then
    some ("Team: " ++ jsShowTeam t.assigned_team)
  else
    none

/-- Success tail of `assignTicket`: its UPDATE statement and its history
INSERT statement. -/
def assignTicketWrites (now : Int) (input : AssignTicketInput)
    (existing : Ticket) : HandlerRun (Option Ticket) :=
  let staged : StagedFields :=
    { assigned_to := some input.assigned_to
      assigned_team := some (some input.assigned_team)
      updated_at := some now }
  let newAssignment : String :=
    if jsTruthyNat input.assigned_to then
      "User ID: " ++ jsShowNat input.assigned_to ++ ", Team: " ++ input.assigned_team.toDb
    else
      "Team: " ++ input.assigned_team.toDb
  let h : HistoryRow :=
    { ticket_id := input.ticket_id
      action := if jsTruthyNat input.assigned_to then "assigned_to_user" else "assigned_to_team"
      previous_value := priorAssignment existing
      new_value := some newAssignment
      performed_by := input.assigned_by
      notes := some (if jsTruthyNat input.assigned_to then
          "Ticket assigned to user " ++ jsShowNat input.assigned_to ++
            " in " ++ input.assigned_team.toDb ++ " team"
        else
          "Ticket assigned to " ++ input.assigned_team.toDb ++ " team")
      created_at := now }
  ⟨[.updateTicket input.ticket_id staged, .insertHistory [h]],
    .ok (some (applyStaged existing staged))⟩

/-- Handler `assignTicket` of src (part_007). -/
def assignTicket (s : Store) (now : Int) (input : AssignTicketInput) :
    HandlerRun (Option Ticket) :=
  match s.tickets.find? (fun t => t.id == input.ticket_id) with
  | none => ⟨[], .error (.ticketNotFound input.ticket_id)⟩
  | some existing =>
    match s.users.find? (fun u => u.id == input.assigned_by) with
    | none => ⟨[], .error (.userNotFound input.assigned_by)⟩
    | some _ =>
      -- `if (input.assigned_to)` : JavaScript truthiness, 0 is falsy
      let assigneeBad : Bool :=
        jsTruthyNat input.assigned_to &&
          (s.users.find? (fun u =>
            u.id == input.assigned_to.getD 0 &&
            u.role == input.assigned_team && u.is_active)).isNone
      if assigneeBad then
        ⟨[], .error (.invalidAssignment (input.assigned_to.getD 0) input.assigned_team)⟩
      else
        -- the UPDATE statement itself: rejected by the database when the
        -- stored assigned_to id satisfies no users row (foreign key)
        match input.assigned_to with
        | some uid =>
          if (s.users.find? (fun u => u.id == uid)).isNone then
            ⟨[], .error (.fkViolationAssignedTo uid)⟩
          else
            assignTicketWrites now input existing
        | none => assignTicketWrites now input existing

/-- Handler `transferTicketToTeam` of src (part_007).  `targetTeam` is a raw
string checked against the list of valid roles. -/
def transferTicketToTeam (s : Store) (now : Int) (ticketId : Nat)
    (targetTeam : String) (transferredBy : Nat) : HandlerRun (Option Ticket) :=
  match UserRole.fromDb targetTeam with
  | none => ⟨[], .error (.invalidTeam targetTeam)⟩
  | some role =>
    match s.tickets.find? (fun t => t.id == ticketId) with
    | none => ⟨[], .error (.ticketNotFound ticketId)⟩
    | some existing =>
      match s.users.find? (fun u => u.id == transferredBy) with
      | none => ⟨[], .error (.userNotFound transferredBy)⟩
      | some _ =>
        let staged : StagedFields :=
          { assigned_to := some none
            assigned_team := some (some role)
            updated_at := some now }
        let h : HistoryRow :=
          { ticket_id := ticketId
            action := "transferred_to_team"
            previous_value := some ((priorAssignment existing).getD "Unassigned")
            new_value := some ("Team: " ++ targetTeam)
            performed_by := transferredBy
            notes := some ("Ticket transferred to " ++ targetTeam ++ " team")
            created_at := now }
        ⟨[.updateTicket ticketId staged, .insertHistory [h]],
          .ok (some (applyStaged existing staged))⟩

/-!
## Reporting aggregator

Calendar model: a proleptic Gregorian day count, as JavaScript Date uses
for the year range the report schema admits (2020 to 2100).  A timestamp
is the day number times 1440 plus the minutes into the day.
-/

/-- Gregorian leap-year test. -/
def isLeapYear (y : Nat) : Bool :=
  (y % 4 == 0 && y % 100 != 0) || y % 400 == 0

/-- Length of month m (1 to 12) of year y. -/
def daysInMonth (y m : Nat) : Nat :=
  if m = 2 then (if isLeapYear y then 29 else 28)
  else if m = 4 ∨ m = 6 ∨ m = 9 ∨ m = 11 then 30
  else 31

/-- Days of year y strictly before month m. -/
def daysBeforeMonth (y m : Nat) : Nat :=
  (List.range (m - 1)).foldl (fun a i => a + daysInMonth y (i + 1)) 0

/-- Leap years strictly before year y. -/
def leapsBefore (y : Nat) : Nat :=
  (y - 1) / 4 - (y - 1) / 100 + (y - 1) / 400

/-- Day number of the civil date (y, m, d). -/
def dayNumber (y m d : Nat) : Nat :=
  365 * (y - 1) + leapsBefore y + daysBeforeMonth y m + (d - 1)

/-- Timestamp (minutes) of the civil date-time (y, m, d, hh:mi). -/
def minutesAt (y m d hh mi : Nat) : Int :=
  (dayNumber y m d : Int) * 1440 + hh * 60 + mi

/-- Timestamp of the JavaScript value `new Date(y, monIdx, day)` at local
midnight: the month index is normalised modulo 12 into the year, and day 0
is the day before the first of the month. -/
def jsDateMinutes (y monIdx day : Nat) : Int :=
  ((dayNumber (y + monIdx / 12) (monIdx % 12 + 1) 1 : Int) + day - 1) * 1440

/-- Query of `generateMonthlyReport` (monthlyReportQuerySchema). -/
structure MonthlyReportQuery where
  year : Nat
  month : Nat
  team : Option UserRole := none
deriving DecidableEq, Repr

/-- Value `new Date(query.year, query.month - 1, 1)` of the handler. -/
def monthlyStart (q : MonthlyReportQuery) : Int :=
  jsDateMinutes q.year (q.month - 1) 1

/-- Value `new Date(query.year, query.month, 0)` of the handler (its
comment reads: last day of the month). -/
def monthlyEnd (q : MonthlyReportQuery) : Int :=
  jsDateMinutes q.year q.month 0

/-- The `conditions` array of `generateMonthlyReport`: created_at between
the two bounds (both `gte` and `lte` inclusive) plus the optional team
filter. -/
def monthlyConditions (q : MonthlyReportQuery) (t : Ticket) : Bool :=
  decide (monthlyStart q ≤ t.created_at) &&
  decide (t.created_at ≤ monthlyEnd q) &&
  (match q.team with
   | none => true
   | some team => t.assigned_team == some team)

/-- Tickets selected by every query of `generateMonthlyReport` (the summary
and both breakdowns share the same `conditions`). -/
def monthlyTickets (s : Store) (q : MonthlyReportQuery) : List Ticket :=
  s.tickets.filter (monthlyConditions q)

/-- Count of tickets of one status (the `count(CASE WHEN ...)` columns). -/
def statusCount (ts : List Ticket) (st : TicketStatus) : Nat :=
  (ts.filter (fun t => t.status == st)).length

/-- Hours from creation to resolution, when resolved
(`EXTRACT(EPOCH FROM (resolved_at - created_at)) / 3600`). -/
def resolutionHours (t : Ticket) : Option ℚ :=
  t.resolved_at.map (fun r => ((r - t.created_at : Int) : ℚ) / 60)

/-- SQL AVG over the non-null resolution times: null when no row has one. -/
def avgResolutionHours (ts : List Ticket) : Option ℚ :=
  let xs := ts.filterMap resolutionHours
  if xs.isEmpty then none else some (xs.sum / xs.length)

/-- All customer categories, in declaration order of the Postgres enum. -/
def CustomerCategory.all : List CustomerCategory :=
  [.broadband, .dedicated, .reseller]

/-- All priorities, in declaration order of the Postgres enum. -/
def IssuePriority.all : List IssuePriority :=
  [.Low, .Medium, .High, .Critical]

/-- Count of tickets of one customer category. -/
def categoryCount (ts : List Ticket) (c : CustomerCategory) : Nat :=
  (ts.filter (fun t => t.customer_category == c)).length

/-- Count of tickets of one priority. -/
def priorityCount (ts : List Ticket) (p : IssuePriority) : Nat :=
  (ts.filter (fun t => t.issue_priority == p)).length

/-- Summary block of the monthly report. -/
structure MonthlySummary where
  total_tickets : Nat
  resolved_tickets : Nat
  in_progress_tickets : Nat
  pending_tickets : Nat
  cancelled_tickets : Nat
  new_tickets : Nat
  resolution_rate : ℚ
  avg_resolution_time_hours : Option ℚ
deriving DecidableEq, Repr

/-- Return shape of `generateMonthlyReport` (the period echo is omitted:
it repeats the query and the two bound values). -/
structure MonthlyReport where
  summary : MonthlySummary
  priority_breakdown : List (IssuePriority × Nat)
  category_breakdown : List (CustomerCategory × Nat)
  team : String
deriving DecidableEq, Repr

/-- Handler `generateMonthlyReport` of
src/server/src/handlers/reports.ts. -/
def generateMonthlyReport (s : Store) (q : MonthlyReportQuery) : MonthlyReport :=
  let ts := monthlyTickets s q
  { summary :=
      { total_tickets := ts.length
        resolved_tickets := statusCount ts .Solved
        in_progress_tickets := statusCount ts .InProgress
        pending_tickets := statusCount ts .Pending
        cancelled_tickets := statusCount ts .Cancel
        new_tickets := statusCount ts .New
        resolution_rate :=
          if 0 < ts.length then (statusCount ts .Solved : ℚ) / ts.length * 100 else 0
        avg_resolution_time_hours := avgResolutionHours ts }
    priority_breakdown :=
      (IssuePriority.all.filter (fun p => priorityCount ts p != 0)).map
        (fun p => (p, priorityCount ts p))
    category_breakdown :=
      (CustomerCategory.all.filter (fun c => categoryCount ts c != 0)).map
        (fun c => (c, categoryCount ts c))
    team := match q.team with
      | none => "All Teams"
      | some r => r.toDb }

/-- Modelled from the spec: the calendar month of the report contains a
ticket when its created_at lies on or after the first day and before the
first day of the next month, so that the whole last day is included.  The
source file src/server/src/handlers/reports.ts computes its own inclusive
upper bound instead; this definition exists to compare the two. -/
def specCalendarMonthContains (q : MonthlyReportQuery) (t : Ticket) : Bool :=
  decide (jsDateMinutes q.year (q.month - 1) 1 ≤ t.created_at) &&
  decide (t.created_at < jsDateMinutes q.year q.month 1)

/-- Tickets of `getIssueTypeAnalysis` and friends: created_at between the
two supplied dates, both bounds inclusive. -/
def rangeTickets (s : Store) (a b : Int) : List Ticket :=
  s.tickets.filter (fun t => decide (a ≤ t.created_at) && decide (t.created_at ≤ b))

/-- Insertion into a list kept in descending count order
(`orderBy(desc(count(...)))`). -/
def insertByCountDesc (x : String × Nat) : List (String × Nat) → List (String × Nat)
  | [] => [x]
  | y :: ys => if y.2 ≤ x.2 then x :: y :: ys else y :: insertByCountDesc x ys

/-- Sort by count, descending. -/
def sortByCountDesc (l : List (String × Nat)) : List (String × Nat) :=
  l.foldr insertByCountDesc []

/-- The `categoryStats` query of `getIssueTypeAnalysis`: per-category group
counts over the range, largest first. -/
def issueCategoryRows (s : Store) (a b : Int) : List (String × Nat) :=
  let ts := rangeTickets s a b
  sortByCountDesc
    ((CustomerCategory.all.filter (fun c => categoryCount ts c != 0)).map
      (fun c => (c.toDb, categoryCount ts c)))

/-- The `priorityStats` query of `getIssueTypeAnalysis`: per-priority group
counts over the range, labelled `CONCAT(priority, ' Priority')`, largest
first. -/
def issuePriorityRows (s : Store) (a b : Int) : List (String × Nat) :=
  let ts := rangeTickets s a b
  sortByCountDesc
    ((IssuePriority.all.filter (fun p => priorityCount ts p != 0)).map
      (fun p => (p.toDb ++ " Priority", priorityCount ts p)))

/-- Rounding to two decimals: `parseFloat(x.toFixed(2))` on the
non-negative percentages involved. -/
def round2 (q : ℚ) : ℚ := (round (q * 100) : ℤ) / 100

/-- Percentage column: rounded share of the total, 0 when the range is
empty. -/
def pctOf (total cnt : Nat) : ℚ :=
  if 0 < total then round2 ((cnt : ℚ) / total * 100) else 0

/-- Row shape of `getIssueTypeAnalysis` (issueTypeStatsSchema). -/
structure IssueTypeStats where
  issue_type : String
  count : Nat
  percentage : ℚ
deriving DecidableEq, Repr

/-- Handler `getIssueTypeAnalysis` of
src/server/src/handlers/reports.ts: category groups then priority groups,
each with its percentage of the one shared total. -/
def getIssueTypeAnalysis (s : Store) (a b : Int) : List IssueTypeStats :=
  let total := (rangeTickets s a b).length
  (issueCategoryRows s a b ++ issuePriorityRows s a b).map
    (fun r => { issue_type := r.1, count := r.2, percentage := pctOf total r.2 })

/-!
## Invariants, run helpers and concrete fixtures
-/

/-- Per-ticket statement of the resolved-at invariant: resolved_at is
non-null exactly when the status is Solved. -/
def ticketResolvedOk (t : Ticket) : Bool :=
  t.resolved_at.isSome == (t.status == TicketStatus.Solved)

/-- Store-wide resolved-at invariant. -/
def ResolvedInv (s : Store) : Prop :=
  s.tickets.all ticketResolvedOk = true

/-- Ticket ids are pairwise distinct (the serial primary key of the
complaint_tickets table). -/
def TicketIdsNodup (s : Store) : Prop :=
  (s.tickets.map Ticket.id).Nodup

/-- Store after a fault-free `createComplaintTicket`. -/
def runCreate (s : Store) (now : Int) (inp : CreateTicketInput) : Store :=
  (createComplaintTicket s now inp).final s

/-- Store after a fault-free `updateComplaintTicket`. -/
def runUpdate (s : Store) (now : Int) (inp : UpdateTicketInput) : Store :=
  (updateComplaintTicket s now inp).final s

/-- Store after a fault-free `assignTicket`. -/
def runAssign (s : Store) (now : Int) (inp : AssignTicketInput) : Store :=
  (assignTicket s now inp).final s

/-- Store after a fault-free `transferTicketToTeam`. -/
def runTransfer (s : Store) (now : Int) (tid : Nat) (team : String)
    (tby : Nat) : Store :=
  (transferTicketToTeam s now tid team tby).final s

/-- Active CS user, id 1. -/
def userActiveCS : User :=
  { id := 1, username := "cs_agent", email := "cs@example.com"
    full_name := "CS Agent", role := .CS, is_active := true
    created_at := 0, updated_at := 0 }

/-- Active TSO user, id 2. -/
def userActiveTSO : User :=
  { id := 2, username := "tso_agent", email := "tso@example.com"
    full_name := "TSO Agent", role := .TSO, is_active := true
    created_at := 0, updated_at := 0 }

/-- Inactive TSO user, id 3. -/
def userInactiveTSO : User :=
  { id := 3, username := "tso_gone", email := "gone@example.com"
    full_name := "TSO Gone", role := .TSO, is_active := false
    created_at := 0, updated_at := 0 }

/-- A freshly created ticket, id 1, unassigned, status New. -/
def baseTicket : Ticket :=
  { id := 1, customer_id := "CUST001", customer_name := "John Doe"
    customer_address := "123 Main St", customer_category := .broadband
    issue_description := "Internet connection issues"
    issue_priority := .Medium, status := .New, created_by := 1
    assigned_to := none, assigned_team := none, resolution_notes := none
    created_at := 0, updated_at := 0, resolved_at := none }

/-- View of one mutable field of the update operation, as the specification
describes it: the display name, whether the field was supplied with a value
differing from the stored one, and the raw string coercions of the stored
and supplied values (null for null, the empty string kept as is). -/
structure FieldChangeView where
  display : String
  differs : Bool
  oldRaw : Option String
  newRaw : Option String
deriving DecidableEq, Repr

/-- History rows the specification prescribes for one field view: exactly
one row when the field was supplied and differs, none otherwise, with the
action built from the lower-cased display name and the values the string
coercions of old and new, null standing for null values and for values
whose coercion is the empty string. -/
def specChangeRows (tid : Nat) (now : Int) (v : FieldChangeView) : List HistoryRow :=
  if v.differs then
    [{ ticket_id := tid
       action := jsToLower v.display ++ "_changed"
       previous_value := v.oldRaw.bind jsStrOrNull
       new_value := v.newRaw.bind jsStrOrNull
       performed_by := 1
       notes := some (v.display ++ " updated")
       created_at := now }]
  else []

/-- The ten mutable ticket fields as views, in handler order. -/
def fieldViews (cur : Ticket) (input : UpdateTicketInput) : List FieldChangeView :=
  [ { display := "Customer ID"
      differs := changedField cur.customer_id input.customer_id
      oldRaw := some cur.customer_id, newRaw := input.customer_id },
    { display := "Customer Name"
      differs := changedField cur.customer_name input.customer_name
      oldRaw := some cur.customer_name, newRaw := input.customer_name },
    { display := "Customer Address"
      differs := changedField cur.customer_address input.customer_address
      oldRaw := some cur.customer_address, newRaw := input.customer_address },
    { display := "Customer Category"
      differs := changedField cur.customer_category input.customer_category
      oldRaw := some cur.customer_category.toDb
      newRaw := input.customer_category.map CustomerCategory.toDb },
    { display := "Issue Description"
      differs := changedField cur.issue_description input.issue_description
      oldRaw := some cur.issue_description, newRaw := input.issue_description },
    { display := "Issue Priority"
      differs := changedField cur.issue_priority input.issue_priority
      oldRaw := some cur.issue_priority.toDb
      newRaw := input.issue_priority.map IssuePriority.toDb },
    { display := "Status"
      differs := changedField cur.status input.status
      oldRaw := some cur.status.toDb
      newRaw := input.status.map TicketStatus.toDb },
    { display := "Assigned To"
      differs := changedField cur.assigned_to input.assigned_to
      oldRaw := cur.assigned_to.map toString
      newRaw := (input.assigned_to.getD none).map toString },
    { display := "Assigned Team"
      differs := changedField cur.assigned_team input.assigned_team
      oldRaw := cur.assigned_team.map UserRole.toDb
      newRaw := (input.assigned_team.getD none).map UserRole.toDb },
    { display := "Resolution Notes"
      differs := changedField cur.resolution_notes input.resolution_notes
      oldRaw := cur.resolution_notes
      newRaw := input.resolution_notes.getD none } ]

/-!
Concrete fixtures used by the counterexamples and witnesses.
-/

/-- Store with one active CS user and one fresh ticket. -/
def storeOneTicket : Store :=
  { users := [userActiveCS], tickets := [baseTicket], history := [] }

/-- Valid creation input by user 1. -/
def c1Input : CreateTicketInput :=
  { customer_id := "CUST001", customer_name := "John Doe"
    customer_address := "123 Main St", customer_category := .broadband
    issue_description := "No internet", issue_priority := .High
    created_by := 1 }

/-- Store with one active CS user and no tickets. -/
def c1Store : Store := { users := [userActiveCS], tickets := [], history := [] }

/-- Update moving ticket 1 to Solved. -/
def c2Input : UpdateTicketInput := { id := 1, status := some .Solved }

/-- Update moving ticket 1 to In Progress. -/
def c3Input : UpdateTicketInput := { id := 1, status := some .InProgress }

/-- Ticket 1 assigned to TSO user 3. -/
def c4Ticket : Ticket :=
  { baseTicket with assigned_to := some 3, assigned_team := some .TSO }

/-- Store where ticket 1 is assigned to user 3, who has since been
deactivated. -/
def c4Store : Store :=
  { users := [userActiveCS, userInactiveTSO], tickets := [c4Ticket], history := [] }

/-- Update supplying only assigned_to, with the very value already
stored. -/
def c4Input : UpdateTicketInput := { id := 1, assigned_to := some (some 3) }

/-- Update supplying no field at all. -/
def c4NoopInput : UpdateTicketInput := { id := 1 }

/-- Assignment input with the falsy assignee id 0. -/
def c5Input : AssignTicketInput :=
  { ticket_id := 1, assigned_to := some 0, assigned_team := .NOC, assigned_by := 1 }

/-- Ticket 1 whose stored resolution_notes is a non-empty string. -/
def c6Ticket : Ticket := { baseTicket with resolution_notes := some "note" }

/-- Store holding `c6Ticket`. -/
def c6Store : Store :=
  { users := [userActiveCS], tickets := [c6Ticket], history := [] }

/-- Update setting resolution_notes to the empty string. -/
def c6Input : UpdateTicketInput := { id := 1, resolution_notes := some (some "") }

/-- Ticket 1 assigned to TSO user 2. -/
def c7Ticket : Ticket :=
  { baseTicket with assigned_to := some 2, assigned_team := some .TSO }

/-- Store with an active CS user, an active TSO user and `c7Ticket`. -/
def c7Store : Store :=
  { users := [userActiveCS, userActiveTSO], tickets := [c7Ticket], history := [] }

/-- Assignment of the active TSO user 2 under team NOC: role and team
disagree. -/
def c5MismatchInput : AssignTicketInput :=
  { ticket_id := 1, assigned_to := some 2, assigned_team := .NOC, assigned_by := 1 }

/-- Ticket created at noon of the last day of January 2024. -/
def c8Ticket : Ticket := { baseTicket with created_at := minutesAt 2024 1 31 12 0 }

/-- Store holding only `c8Ticket`. -/
def c8Store : Store :=
  { users := [userActiveCS], tickets := [c8Ticket], history := [] }

/-- Monthly-report query for January 2024. -/
def c8Query : MonthlyReportQuery := { year := 2024, month := 1 }

/-- Three tickets of the three customer categories, all inside the range
0 to 200. -/
def c9t1 : Ticket := { baseTicket with created_at := 100 }

/-- Second category ticket of the C9 range. -/
def c9t2 : Ticket :=
  { baseTicket with id := 2, customer_category := .dedicated, created_at := 100 }

/-- Third category ticket of the C9 range. -/
def c9t3 : Ticket :=
  { baseTicket with id := 3, customer_category := .reseller, created_at := 100 }

/-- Store with one ticket in each customer category. -/
def c9Store : Store :=
  { users := [userActiveCS], tickets := [c9t1, c9t2, c9t3], history := [] }

/-- Store whose only candidate actor, user 3, is inactive. -/
def c10Store : Store :=
  { users := [userActiveCS, userInactiveTSO], tickets := [baseTicket], history := [] }

/-- Team-only assignment performed by the inactive user 3. -/
def c10Input : AssignTicketInput :=
  { ticket_id := 1, assigned_to := none, assigned_team := .NOC, assigned_by := 3 }

/-!
## Helper lemmas
-/

theorem applyWrites_nil (s : Store) : applyWrites s [] = s := rfl

theorem UserRole.fromDb_toDb (r : UserRole) : UserRole.fromDb r.toDb = some r := by
  cases r <;> rfl

theorem stagedField_isSome {α : Type} [DecidableEq α] (old : α) (new? : Option α) :
    (stagedField old new?).isSome = changedField old new? := by
  cases new? with
  | none => rfl
  | some v => by_cases h : v = old <;> simp [stagedField, changedField, h]

theorem stagedField_eq_none {α : Type} [DecidableEq α] {old : α} {new? : Option α}
    (h : ∀ v, new? = some v → v = old) : stagedField old new? = none := by
  cases hn : new? with
  | none => rfl
  | some v => simp [stagedField, h v hn]

theorem updateHistoryRows_eq_nil (cur : Ticket) (input : UpdateTicketInput) (now : Int)
    (h : updateAnyChanged (updateBaseStaged cur input) = false) :
    updateHistoryRows cur input now = [] := by
  unfold updateAnyChanged updateBaseStaged at h
  simp only [Bool.or_eq_false_iff, stagedField_isSome] at h
  obtain ⟨⟨⟨⟨⟨⟨⟨⟨⟨h1, h2⟩, h3⟩, h4⟩, h5⟩, h6⟩, h7⟩, h8⟩, h9⟩, h10⟩ := h
  simp [updateHistoryRows, trackRow, h1, h2, h3, h4, h5, h6, h7, h8, h9, h10]

theorem updateTicketDiff_historyRows (now : Int) (input : UpdateTicketInput)
    (cur : Ticket) :
    (updateTicketDiff now input cur).historyRows = updateHistoryRows cur input now := by
  unfold updateTicketDiff
  by_cases h : updateAnyChanged (updateBaseStaged cur input) = false
  · simp [h, HandlerRun.historyRows, updateHistoryRows_eq_nil cur input now h]
  · simp only [h]
    by_cases he : (updateHistoryRows cur input now).isEmpty
    · simp [he, HandlerRun.historyRows, List.isEmpty_iff.mp he]
    · simp [he, HandlerRun.historyRows]

theorem updateComplaintTicket_historyRows (s : Store) (now : Int)
    (input : UpdateTicketInput) (cur : Ticket)
    (hfind : s.tickets.find? (fun t => t.id == input.id) = some cur)
    (hvalid : ∀ uid, input.assigned_to = some (some uid) →
      (s.users.find? (fun u => u.id == uid && u.is_active)).isSome = true) :
    (updateComplaintTicket s now input).historyRows = updateHistoryRows cur input now := by
  unfold updateComplaintTicket
  rw [hfind]
  rcases hat : input.assigned_to with _ | o
  · exact updateTicketDiff_historyRows now input cur
  · rcases o with _ | uid
    · exact updateTicketDiff_historyRows now input cur
    · rcases Option.isSome_iff_exists.mp (hvalid uid hat) with ⟨w, hw⟩
      simp only [hw, Option.isNone_some, Bool.false_eq_true, if_false]
      exact updateTicketDiff_historyRows now input cur

theorem trackRow_plain (old : String) (new? : Option String) (tid : Nat)
    (d : String) (now : Int) :
    trackRow (changedField old new?) tid d (jsStrOrNull old)
      (suppliedCoerce jsStrOrNull new?) now =
      specChangeRows tid now ⟨d, changedField old new?, some old, new?⟩ := by
  cases new? <;> simp [trackRow, specChangeRows, suppliedCoerce, changedField]

theorem trackRow_enum {α : Type} [DecidableEq α] (f : α → String) (old : α)
    (new? : Option α) (tid : Nat) (d : String) (now : Int) :
    trackRow (changedField old new?) tid d (jsStrOrNull (f old))
      (suppliedCoerce (fun v => jsStrOrNull (f v)) new?) now =
      specChangeRows tid now ⟨d, changedField old new?, some (f old), new?.map f⟩ := by
  cases new? <;> simp [trackRow, specChangeRows, suppliedCoerce, changedField]

theorem trackRow_nullable {β : Type} [DecidableEq β] (f : β → String)
    (old : Option β) (new? : Option (Option β)) (tid : Nat) (d : String) (now : Int) :
    trackRow (changedField old new?) tid d (old.bind (fun x => jsStrOrNull (f x)))
      (suppliedCoerce (fun o => o.bind (fun x => jsStrOrNull (f x))) new?) now =
      specChangeRows tid now ⟨d, changedField old new?, old.map f, (new?.getD none).map f⟩ := by
  cases new? with
  | none => cases old <;> simp [trackRow, specChangeRows, changedField, suppliedCoerce]
  | some o => cases o <;> cases old <;> simp [trackRow, specChangeRows, changedField, suppliedCoerce]

theorem trackRow_nullableStr (old : Option String) (new? : Option (Option String))
    (tid : Nat) (d : String) (now : Int) :
    trackRow (changedField old new?) tid d (old.bind jsStrOrNull)
      (suppliedCoerce (fun o => o.bind jsStrOrNull) new?) now =
      specChangeRows tid now ⟨d, changedField old new?, old, new?.getD none⟩ := by
  cases new? <;> simp [trackRow, specChangeRows, changedField, suppliedCoerce]

theorem resolvedOk_applyStaged_frame (t : Ticket) (f : StagedFields)
    (hst : f.status = none) (hres : f.resolved_at = none) :
    ticketResolvedOk (applyStaged t f) = ticketResolvedOk t := by
  simp [ticketResolvedOk, applyStaged, hst, hres]

theorem all_resolvedOk_map_frame (l : List Ticket) (id : Nat) (f : StagedFields)
    (hst : f.status = none) (hres : f.resolved_at = none) :
    (l.map (fun t => if t.id = id then applyStaged t f else t)).all ticketResolvedOk
      = l.all ticketResolvedOk := by
  induction l with
  | nil => rfl
  | cons t l ih =>
      by_cases h : t.id = id <;>
        simp [h, ih, resolvedOk_applyStaged_frame t f hst hres]

theorem resolvedOk_updateFinalStaged (cur : Ticket) (input : UpdateTicketInput)
    (now : Int) (h : ticketResolvedOk cur = true) :
    ticketResolvedOk (applyStaged cur (updateFinalStaged cur input now)) = true := by
  rcases hst : input.status with _ | v
  · have h1 : updateFinalStaged cur input now =
        { updateBaseStaged cur input with updated_at := some now } := by
      simp [updateFinalStaged, hst]
    rw [h1, resolvedOk_applyStaged_frame cur _ (by simp [updateBaseStaged, hst, stagedField]) (by simp [updateBaseStaged])]
    exact h
  · cases v <;> cases hcur : cur.status <;> cases hres : cur.resolved_at <;>
      simp_all [ticketResolvedOk, applyStaged, updateFinalStaged, updateBaseStaged,
        stagedField]

theorem eq_of_mem_id_find? {l : List Ticket} {i : Nat} {cur t : Ticket}
    (hnd : (l.map Ticket.id).Nodup)
    (hfind : l.find? (fun x => x.id == i) = some cur)
    (hmem : t ∈ l) (hid : t.id = i) : t = cur := by
  have hcurmem : cur ∈ l := List.mem_of_find?_eq_some hfind
  have hcurid : cur.id = i := by simpa using List.find?_some hfind
  exact List.inj_on_of_nodup_map hnd hmem hcurmem (by rw [hid, hcurid])


theorem resolvedInv_one_update_write (s : Store) (id : Nat) (f : StagedFields)
    (hst : f.status = none) (hres : f.resolved_at = none) (hinv : ResolvedInv s) :
    ResolvedInv (applyWrites s [.updateTicket id f]) := by
  have hinv' : s.tickets.all ticketResolvedOk = true := hinv
  show (applyWrites s _).tickets.all ticketResolvedOk = true
  simp only [applyWrites, List.foldl, applyWrite]
  rw [all_resolvedOk_map_frame _ _ _ hst hres]
  exact hinv'

theorem resolvedInv_two_writes (s : Store) (id : Nat) (f : StagedFields)
    (rows : List HistoryRow)
    (hst : f.status = none) (hres : f.resolved_at = none) (hinv : ResolvedInv s) :
    ResolvedInv (applyWrites s [.updateTicket id f, .insertHistory rows]) := by
  have hinv' : s.tickets.all ticketResolvedOk = true := hinv
  show (applyWrites s _).tickets.all ticketResolvedOk = true
  simp only [applyWrites, List.foldl, applyWrite]
  rw [all_resolvedOk_map_frame _ _ _ hst hres]
  exact hinv'


theorem resolvedInv_runCreate (s : Store) (now : Int) (inp : CreateTicketInput)
    (hinv : ResolvedInv s) : ResolvedInv (runCreate s now inp) := by
  have hinv' : s.tickets.all ticketResolvedOk = true := hinv
  unfold runCreate createComplaintTicket
  rcases hf : s.users.find? (fun u => u.id == inp.created_by) with _ | creator
  · rw [hf]
    exact hinv
  · rw [hf]
    by_cases hac : creator.is_active
    · simp only [hac, Bool.not_true, Bool.false_eq_true, if_false]
      show (applyWrites s _).tickets.all ticketResolvedOk = true
      simp only [applyWrites, List.foldl, applyWrite]
      simp [List.all_append, hinv', ticketResolvedOk]
    · simp only [hac, Bool.not_false, if_true]
      exact hinv

theorem resolvedInv_runAssign (s : Store) (now : Int) (inp : AssignTicketInput)
    (hinv : ResolvedInv s) : ResolvedInv (runAssign s now inp) := by
  unfold runAssign assignTicket
  rcases hf : s.tickets.find? (fun t => t.id == inp.ticket_id) with _ | existing
  · rw [hf]; exact hinv
  · rw [hf]
    rcases hb : s.users.find? (fun u => u.id == inp.assigned_by) with _ | assigner
    · rw [hb]; exact hinv
    · rw [hb]
      by_cases hbad : (jsTruthyNat inp.assigned_to &&
          (s.users.find? (fun u => u.id == inp.assigned_to.getD 0 &&
            u.role == inp.assigned_team && u.is_active)).isNone) = true
      · simp only [hbad, if_true]
        exact hinv
      · simp only [Bool.not_eq_true] at hbad
        simp only [hbad, Bool.false_eq_true, if_false]
        rcases hto : inp.assigned_to with _ | uid
        · exact resolvedInv_two_writes s inp.ticket_id _ _ rfl rfl hinv
        · by_cases hfk : (s.users.find? (fun u => u.id == uid)).isNone = true
          · simp only [hfk, if_true]
            exact hinv
          · simp only [Bool.not_eq_true] at hfk
            simp only [hfk, Bool.false_eq_true, if_false]
            exact resolvedInv_two_writes s inp.ticket_id _ _ rfl rfl hinv

theorem resolvedInv_runTransfer (s : Store) (now : Int) (tid : Nat)
    (team : String) (tby : Nat) (hinv : ResolvedInv s) :
    ResolvedInv (runTransfer s now tid team tby) := by
  unfold runTransfer transferTicketToTeam
  rcases hr : UserRole.fromDb team with _ | role
  · exact hinv
  · rcases hf : s.tickets.find? (fun t => t.id == tid) with _ | existing
    · rw [hf]; exact hinv
    · rw [hf]
      rcases hb : s.users.find? (fun u => u.id == tby) with _ | u
      · rw [hb]; exact hinv
      · rw [hb]
        exact resolvedInv_two_writes s tid _ _ rfl rfl hinv

theorem resolvedInv_updateDiff (s : Store) (now : Int) (inp : UpdateTicketInput)
    (cur : Ticket) (hnd : TicketIdsNodup s)
    (hfind : s.tickets.find? (fun t => t.id == inp.id) = some cur)
    (hinv : ResolvedInv s) : ResolvedInv ((updateTicketDiff now inp cur).final s) := by
  have hall : ∀ hist : List HistoryRow,
      ResolvedInv { users := s.users
                    tickets := s.tickets.map (fun t => if t.id = inp.id then applyStaged t (updateFinalStaged cur inp now) else t)
                    history := hist } := by
    intro hist
    simp only [ResolvedInv, List.all_eq_true]
    intro t' ht'
    rcases List.mem_map.mp ht' with ⟨t, ht, rfl⟩
    by_cases h : t.id = inp.id
    · have hteq : t = cur := eq_of_mem_id_find? hnd hfind ht h
      subst hteq
      have hok : ticketResolvedOk t = true := List.all_eq_true.mp hinv t ht
      simp [h, resolvedOk_updateFinalStaged t inp now hok]
    · simp only [h, if_false]
      exact List.all_eq_true.mp hinv t ht
  unfold updateTicketDiff
  by_cases hch : updateAnyChanged (updateBaseStaged cur inp) = false
  · simp only [hch, if_true]
    exact hinv
  · simp only [hch, if_false]
    by_cases he : (updateHistoryRows cur inp now).isEmpty = true
    · simp only [he, if_true, List.append_nil]
      exact hall s.history
    · simp only [Bool.not_eq_true] at he
      simp only [he, Bool.false_eq_true, if_false]
      exact hall (s.history ++ updateHistoryRows cur inp now)

theorem resolvedInv_runUpdate (s : Store) (now : Int) (inp : UpdateTicketInput)
    (hnd : TicketIdsNodup s) (hinv : ResolvedInv s) :
    ResolvedInv (runUpdate s now inp) := by
  unfold runUpdate updateComplaintTicket
  rcases hf : s.tickets.find? (fun t => t.id == inp.id) with _ | cur
  · rw [hf]; exact hinv
  · rw [hf]
    rcases hat : inp.assigned_to with _ | o
    · exact resolvedInv_updateDiff s now inp cur hnd hf hinv
    · rcases o with _ | uid
      · exact resolvedInv_updateDiff s now inp cur hnd hf hinv
      · by_cases hbad : (s.users.find? (fun u => u.id == uid && u.is_active)).isNone = true
        · simp only [hbad, if_true]
          exact hinv
        · simp only [Bool.not_eq_true] at hbad
          simp only [hbad, Bool.false_eq_true, if_false]
          exact resolvedInv_updateDiff s now inp cur hnd hf hinv

theorem insertByCountDesc_perm (x : String × Nat) (l : List (String × Nat)) :
    List.Perm (insertByCountDesc x l) (x :: l) := by
  induction l with
  | nil => exact List.Perm.refl _
  | cons y ys ih =>
      by_cases h : y.2 ≤ x.2
      · simp [insertByCountDesc, h]
      · simp only [insertByCountDesc, h, if_false]
        exact List.Perm.trans (List.Perm.cons y ih) (List.Perm.swap x y ys)

theorem sortByCountDesc_perm (l : List (String × Nat)) :
    List.Perm (sortByCountDesc l) l := by
  induction l with
  | nil => exact List.Perm.refl _
  | cons x xs ih =>
      exact List.Perm.trans (insertByCountDesc_perm x (sortByCountDesc xs))
        (List.Perm.cons x ih)

theorem sum_map_filter_nonzero {α : Type} (l : List α) (f : α → Nat) (g : α → ℚ)
    (hg : ∀ x, f x = 0 → g x = 0) :
    ((l.filter (fun x => f x != 0)).map g).sum = (l.map g).sum := by
  induction l with
  | nil => rfl
  | cons a l ih =>
      by_cases h : f a = 0
      · simp [List.filter_cons, h, hg a h, ih]
      · simp [List.filter_cons, h, ih]

theorem categoryCount_partition (ts : List Ticket) :
    categoryCount ts .broadband + categoryCount ts .dedicated +
      categoryCount ts .reseller = ts.length := by
  induction ts with
  | nil => rfl
  | cons t ts ih =>
      cases h : t.customer_category <;>
        simp [categoryCount, List.filter_cons, h] at ih ⊢ <;> omega

theorem priorityCount_partition (ts : List Ticket) :
    priorityCount ts .Low + priorityCount ts .Medium + priorityCount ts .High +
      priorityCount ts .Critical = ts.length := by
  induction ts with
  | nil => rfl
  | cons t ts ih =>
      cases h : t.issue_priority <;>
        simp [priorityCount, List.filter_cons, h] at ih ⊢ <;> omega

/-!
## Claim theorems
-/

/-- C1: the claim says every Lifecycle Engine write operation couples its
ticket-row write and its history append atomically, so that no reachable
failure leaves one without the other.  The source issues them as separate
statements with no wrapping transaction.  Evaluating the embedded handlers:
a create issues two statements, and the store after only the first one —
the state left behind when the history insert fails — holds the new ticket
with an empty history, a state that is neither the initial nor the final
one; an update likewise leaves the mutated row with no history entry. -/
theorem lifecycle_writes_not_atomic :
    ((createComplaintTicket c1Store 0 c1Input).writes.length = 2 ∧
      (applyWrites c1Store ((createComplaintTicket c1Store 0 c1Input).writes.take 1)).tickets.length = 1 ∧
      (applyWrites c1Store ((createComplaintTicket c1Store 0 c1Input).writes.take 1)).history = [] ∧
      applyWrites c1Store ((createComplaintTicket c1Store 0 c1Input).writes.take 1) ≠ c1Store ∧
      applyWrites c1Store ((createComplaintTicket c1Store 0 c1Input).writes.take 1) ≠
        applyWrites c1Store (createComplaintTicket c1Store 0 c1Input).writes) ∧
    ((applyWrites storeOneTicket ((updateComplaintTicket storeOneTicket 10 c3Input).writes.take 1)).history = [] ∧
      (applyWrites storeOneTicket ((updateComplaintTicket storeOneTicket 10 c3Input).writes.take 1)).tickets.map Ticket.status = [.InProgress] ∧
      applyWrites storeOneTicket ((updateComplaintTicket storeOneTicket 10 c3Input).writes.take 1) ≠ storeOneTicket ∧
      applyWrites storeOneTicket ((updateComplaintTicket storeOneTicket 10 c3Input).writes.take 1) ≠
        applyWrites storeOneTicket (updateComplaintTicket storeOneTicket 10 c3Input).writes) := by
  decide

/-- C2: resolved_at is non-null exactly when the status is Solved, and
every public operation preserves this equivalence on every ticket of a
store with distinct ticket ids: the update operation sets resolved_at on a
transition into Solved, clears it on a transition out, and the create,
assign and transfer operations never touch the pair. -/
theorem resolved_at_iff_solved_invariant (s : Store) (now : Int)
    (hnd : TicketIdsNodup s) (hinv : ResolvedInv s) :
    (∀ inp, ResolvedInv (runCreate s now inp)) ∧
    (∀ inp, ResolvedInv (runUpdate s now inp)) ∧
    (∀ inp, ResolvedInv (runAssign s now inp)) ∧
    (∀ tid team tby, ResolvedInv (runTransfer s now tid team tby)) :=
  ⟨fun inp => resolvedInv_runCreate s now inp hinv,
   fun inp => resolvedInv_runUpdate s now inp hnd hinv,
   fun inp => resolvedInv_runAssign s now inp hinv,
   fun tid team tby => resolvedInv_runTransfer s now tid team tby hinv⟩

/-- Witness for C2 at a concrete store: the invariant holds before and
after an update that moves the ticket to Solved, and after a create. -/
theorem resolved_at_iff_solved_invariant_witness :
    TicketIdsNodup storeOneTicket ∧ ResolvedInv storeOneTicket ∧
      ResolvedInv (runUpdate storeOneTicket 5 c2Input) ∧
      ResolvedInv (runCreate storeOneTicket 5 c1Input) := by
  refine ⟨by unfold TicketIdsNodup; decide, by unfold ResolvedInv; decide, ?_, ?_⟩
  · exact (resolved_at_iff_solved_invariant storeOneTicket 5
      (by unfold TicketIdsNodup; decide) (by unfold ResolvedInv; decide)).2.1 c2Input
  · exact (resolved_at_iff_solved_invariant storeOneTicket 5
      (by unfold TicketIdsNodup; decide) (by unfold ResolvedInv; decide)).1 c1Input

/-- C3: the claim requires performed_by of the history entries written by
updateComplaintTicket to be the acting caller.  The handler takes no acting
identity at all and writes the constant user id 1 (its own comment says a
real app would take it from the authentication context): evaluating the
embedded handler on a status change performed on a store whose ticket was
created by user 1 but where any other user could be acting, the single
history row carries performed_by = 1. -/
theorem update_history_performer_hardcoded :
    ((updateComplaintTicket storeOneTicket 10 c3Input).historyRows.map HistoryRow.performed_by) = [1] ∧
    ((updateComplaintTicket storeOneTicket 10 c3Input).historyRows.map HistoryRow.action) = ["status_changed"] := by
  decide

/-- C4 counterexample: the claim says any update in which no supplied field
differs from the stored value returns the current ticket unchanged.  But
the assignee re-validation runs before the diff: supplying assigned_to with
exactly the stored value throws when that user has meanwhile become
inactive, instead of returning the ticket. -/
theorem noop_update_can_throw :
    c4Input.assigned_to = some c4Ticket.assigned_to ∧
    c4Input.customer_id = none ∧ c4Input.status = none ∧
    (updateComplaintTicket c4Store 10 c4Input).ret = .error (.userNotActiveOrMissing 3) ∧
    (updateComplaintTicket c4Store 10 c4Input).writes = [] := by
  decide

/-- C4 (amended): an update of an existing ticket in which every supplied
field equals the stored value — provided the supplied assigned_to, when
non-null, still passes the active-user re-validation that precedes the
diff — returns the current ticket with every field untouched, issues no
row write and appends no history. -/
theorem noop_update_returns_ticket_unchanged (s : Store) (now : Int)
    (input : UpdateTicketInput) (cur : Ticket)
    (hfind : s.tickets.find? (fun t => t.id == input.id) = some cur)
    (hvalid : ∀ uid, input.assigned_to = some (some uid) →
      (s.users.find? (fun u => u.id == uid && u.is_active)).isSome = true)
    (h1 : ∀ v, input.customer_id = some v → v = cur.customer_id)
    (h2 : ∀ v, input.customer_name = some v → v = cur.customer_name)
    (h3 : ∀ v, input.customer_address = some v → v = cur.customer_address)
    (h4 : ∀ v, input.customer_category = some v → v = cur.customer_category)
    (h5 : ∀ v, input.issue_description = some v → v = cur.issue_description)
    (h6 : ∀ v, input.issue_priority = some v → v = cur.issue_priority)
    (h7 : ∀ v, input.status = some v → v = cur.status)
    (h8 : ∀ v, input.assigned_to = some v → v = cur.assigned_to)
    (h9 : ∀ v, input.assigned_team = some v → v = cur.assigned_team)
    (h10 : ∀ v, input.resolution_notes = some v → v = cur.resolution_notes) :
    updateComplaintTicket s now input = ⟨[], .ok (some cur)⟩ ∧
    runUpdate s now input = s := by
  have hch : updateAnyChanged (updateBaseStaged cur input) = false := by
    simp [updateAnyChanged, updateBaseStaged,
      stagedField_eq_none h1, stagedField_eq_none h2, stagedField_eq_none h3,
      stagedField_eq_none h4, stagedField_eq_none h5, stagedField_eq_none h6,
      stagedField_eq_none h7, stagedField_eq_none h8, stagedField_eq_none h9,
      stagedField_eq_none h10]
  have hdiff : updateTicketDiff now input cur = ⟨[], .ok (some cur)⟩ := by
    unfold updateTicketDiff
    simp [hch]
  have hmain : updateComplaintTicket s now input = ⟨[], .ok (some cur)⟩ := by
    unfold updateComplaintTicket
    rw [hfind]
    rcases hat : input.assigned_to with _ | o
    · exact hdiff
    · rcases o with _ | uid
      · exact hdiff
      · rcases Option.isSome_iff_exists.mp (hvalid uid hat) with ⟨w, hw⟩
        simp only [hw, Option.isNone_some, Bool.false_eq_true, if_false]
        exact hdiff
  refine ⟨hmain, ?_⟩
  unfold runUpdate
  rw [hmain]
  rfl

/-- Witness for C4 at a concrete input: an update supplying no field at all
returns the stored ticket, with no write and no history. -/
theorem noop_update_returns_ticket_unchanged_witness :
    updateComplaintTicket storeOneTicket 10 c4NoopInput = ⟨[], .ok (some baseTicket)⟩ ∧
    runUpdate storeOneTicket 10 c4NoopInput = storeOneTicket :=
  noop_update_returns_ticket_unchanged storeOneTicket 10 c4NoopInput baseTicket
    (by decide) (by simp [c4NoopInput]) (by simp [c4NoopInput]) (by simp [c4NoopInput])
    (by simp [c4NoopInput]) (by simp [c4NoopInput]) (by simp [c4NoopInput])
    (by simp [c4NoopInput]) (by simp [c4NoopInput]) (by simp [c4NoopInput])
    (by simp [c4NoopInput]) (by simp [c4NoopInput])

/-- C5 counterexample: the claim says every call with a non-null
assigned_to fails with InvalidAssignment when no matching active user
exists.  With the non-null assignee id 0 — falsy in JavaScript — the
handler skips the role-and-activity validation entirely, and the failure
that results is the foreign-key rejection of the row write, not the
InvalidAssignment error. -/
theorem assign_zero_assignee_skips_validation :
    c5Input.assigned_to = some 0 ∧
    (assignTicket storeOneTicket 10 c5Input).ret = .error (.fkViolationAssignedTo 0) ∧
    Err.fkViolationAssignedTo 0 ≠ Err.invalidAssignment 0 .NOC ∧
    (assignTicket storeOneTicket 10 c5Input).writes = [] := by
  decide

/-- C5 (amended): for every assignTicket call on an existing ticket by an
existing assigner whose assigned_to is non-null and non-zero, the call
fails with InvalidAssignment and leaves the store untouched unless an
active user exists whose id is the assignee and whose role equals the
supplied team; in particular assigning a TSO-role user under team NOC
fails.  For the falsy id 0 the assignee validation is skipped and the row
write fails with a foreign-key violation instead. -/
theorem assign_invalid_assignee_fails (s : Store) (now : Int)
    (input : AssignTicketInput) (uid : Nat) (tk : Ticket) (ab : User)
    (hfind : s.tickets.find? (fun t => t.id == input.ticket_id) = some tk)
    (hby : s.users.find? (fun u => u.id == input.assigned_by) = some ab)
    (hto : input.assigned_to = some uid) (h0 : uid ≠ 0)
    (hnone : s.users.find? (fun u => u.id == uid &&
      u.role == input.assigned_team && u.is_active) = none) :
    assignTicket s now input = ⟨[], .error (.invalidAssignment uid input.assigned_team)⟩ ∧
    runAssign s now input = s := by
  have hmain : assignTicket s now input =
      ⟨[], .error (.invalidAssignment uid input.assigned_team)⟩ := by
    unfold assignTicket
    rw [hfind, hby]
    simp [hto, jsTruthyNat, h0, hnone]
  refine ⟨hmain, ?_⟩
  unfold runAssign
  rw [hmain]
  rfl

/-- Witness for C5: the spec scenario itself — the active TSO user 2
assigned under team NOC — fails with InvalidAssignment and the store is
unchanged. -/
theorem assign_invalid_assignee_fails_witness :
    assignTicket c7Store 10 c5MismatchInput = ⟨[], .error (.invalidAssignment 2 .NOC)⟩ ∧
    runAssign c7Store 10 c5MismatchInput = c7Store :=
  assign_invalid_assignee_fails c7Store 10 c5MismatchInput 2 c7Ticket userActiveCS
    (by decide) (by decide) (by decide) (by decide) (by decide)

theorem trackRow_assigned_to (old : Option Nat) (new? : Option (Option Nat))
    (tid : Nat) (d : String) (now : Int) :
    trackRow (changedField old new?) tid d
      (old.bind (fun n => jsStrOrNull (toString n)))
      (suppliedCoerce (fun o => o.bind (fun n => jsStrOrNull (toString n))) new?) now =
      specChangeRows tid now
        ⟨d, changedField old new?, old.map toString, (new?.getD none).map toString⟩ :=
  trackRow_nullable (fun n => toString n) old new? tid d now

theorem trackRow_assigned_team (old : Option UserRole) (new? : Option (Option UserRole))
    (tid : Nat) (d : String) (now : Int) :
    trackRow (changedField old new?) tid d
      (old.bind (fun r => jsStrOrNull r.toDb))
      (suppliedCoerce (fun o => o.bind (fun r => jsStrOrNull r.toDb)) new?) now =
      specChangeRows tid now
        ⟨d, changedField old new?, old.map UserRole.toDb, (new?.getD none).map UserRole.toDb⟩ :=
  trackRow_nullable UserRole.toDb old new? tid d now

/-- C6 counterexample: the claim says new_value is the string coercion of
the new value, null only for null values.  Updating resolution_notes from
a non-empty string to the empty string appends one row whose new_value is
null, although the coercion of the empty string is the empty string, which
is not null: the source collapses falsy strings to null. -/
theorem update_history_empty_string_collapsed :
    c6Input.resolution_notes = some (some "") ∧
    ((updateComplaintTicket c6Store 10 c6Input).historyRows.map HistoryRow.new_value) = [none] ∧
    ((updateComplaintTicket c6Store 10 c6Input).historyRows.map HistoryRow.previous_value) = [some "note"] ∧
    some "" ≠ (none : Option String) := by
  decide

/-- C6 (amended): for every update of an existing ticket that passes the
assignee validation, the appended history rows are exactly one row per
supplied-and-differing mutable field, in field order, with action the
lower-cased display name followed by the changed suffix, performed_by the
fixed id 1, and previous and new values the string coercions of the old
and new values — null standing for null values and for values whose
coercion is the empty string. -/
theorem update_history_rows_per_field (s : Store) (now : Int)
    (input : UpdateTicketInput) (cur : Ticket)
    (hfind : s.tickets.find? (fun t => t.id == input.id) = some cur)
    (hvalid : ∀ uid, input.assigned_to = some (some uid) →
      (s.users.find? (fun u => u.id == uid && u.is_active)).isSome = true) :
    (updateComplaintTicket s now input).historyRows =
      ((fieldViews cur input).map (specChangeRows input.id now)).flatten := by
  rw [updateComplaintTicket_historyRows s now input cur hfind hvalid]
  unfold updateHistoryRows fieldViews
  rw [trackRow_plain cur.customer_id input.customer_id input.id "Customer ID" now,
      trackRow_plain cur.customer_name input.customer_name input.id "Customer Name" now,
      trackRow_plain cur.customer_address input.customer_address input.id "Customer Address" now,
      trackRow_enum CustomerCategory.toDb cur.customer_category input.customer_category input.id "Customer Category" now,
      trackRow_plain cur.issue_description input.issue_description input.id "Issue Description" now,
      trackRow_enum IssuePriority.toDb cur.issue_priority input.issue_priority input.id "Issue Priority" now,
      trackRow_enum TicketStatus.toDb cur.status input.status input.id "Status" now,
      trackRow_assigned_to cur.assigned_to input.assigned_to input.id "Assigned To" now,
      trackRow_assigned_team cur.assigned_team input.assigned_team input.id "Assigned Team" now,
      trackRow_nullableStr cur.resolution_notes input.resolution_notes input.id "Resolution Notes" now]
  simp [List.flatten]

/-- Witness for C6 at a concrete input: the run that changes
resolution_notes produces exactly the rows the field views prescribe. -/
theorem update_history_rows_per_field_witness :
    (updateComplaintTicket c6Store 10 c6Input).historyRows =
      ((fieldViews c6Ticket c6Input).map (specChangeRows c6Input.id 10)).flatten :=
  update_history_rows_per_field c6Store 10 c6Input c6Ticket (by decide) (by simp [c6Input])

/-- C7: a transfer with a valid target team on an existing ticket by an
existing transferrer clears assigned_to to null, sets assigned_team to the
target, refreshes updated_at, and appends exactly one history row with
action transferred_to_team, new_value the target-team encoding, and
previous_value the prior assignment encoded as user plus team, team only,
or the literal Unassigned when the ticket was unassigned. -/
theorem transfer_clears_assignment_and_logs (s : Store) (now : Int)
    (tid : Nat) (target : String) (tby : Nat) (role : UserRole)
    (tk : Ticket) (u : User)
    (hrole : UserRole.fromDb target = some role)
    (hfind : s.tickets.find? (fun t => t.id == tid) = some tk)
    (hby : s.users.find? (fun w => w.id == tby) = some u) :
    (runTransfer s now tid target tby).tickets =
      s.tickets.map (fun t => if t.id = tid then
        { t with assigned_to := none, assigned_team := some role, updated_at := now }
      else t) ∧
    (runTransfer s now tid target tby).history = s.history ++
      [{ ticket_id := tid
         action := "transferred_to_team"
         previous_value := some (if jsTruthyNat tk.assigned_to then
             "User ID: " ++ jsShowNat tk.assigned_to ++ ", Team: " ++ jsShowTeam tk.assigned_team
           else if tk.assigned_team.isSome then "Team: " ++ jsShowTeam tk.assigned_team
           else "Unassigned")
         new_value := some ("Team: " ++ target)
         performed_by := tby
         notes := some ("Ticket transferred to " ++ target ++ " team")
         created_at := now }] := by
  unfold runTransfer transferTicketToTeam
  rw [hrole, hfind, hby]
  constructor
  · rfl
  · show s.history ++ _ = s.history ++ _
    unfold priorAssignment
    by_cases h1 : jsTruthyNat tk.assigned_to = true
    · simp [h1]
    · simp only [Bool.not_eq_true] at h1
      by_cases h2 : tk.assigned_team.isSome = true
      · simp [h1, h2]
      · simp only [Bool.not_eq_true] at h2
        simp [h1, h2]

/-- Witness for C7 at a concrete store: the transfer of a ticket assigned
to the TSO user 2 over to team NOC. -/
theorem transfer_clears_assignment_and_logs_witness :
    (runTransfer c7Store 10 1 "NOC" 1).tickets =
      c7Store.tickets.map (fun t => if t.id = 1 then
        { t with assigned_to := none, assigned_team := some UserRole.NOC, updated_at := 10 }
      else t) ∧
    (runTransfer c7Store 10 1 "NOC" 1).history = c7Store.history ++
      [{ ticket_id := 1
         action := "transferred_to_team"
         previous_value := some "User ID: 2, Team: TSO"
         new_value := some "Team: NOC"
         performed_by := 1
         notes := some "Ticket transferred to NOC team"
         created_at := 10 }] :=
  transfer_clears_assignment_and_logs c7Store 10 1 "NOC" 1 .NOC c7Ticket userActiveCS
    (by decide) (by decide) (by decide)

/-- C8: the claim says the monthly report aggregates exactly the tickets
created in the calendar month, the whole last day included.  The handler
computes its upper bound as the last day at local midnight and compares
with a non-strict less-or-equal: evaluating the embedding on a ticket
created at noon of 31 January 2024, the January 2024 report selects no
ticket at all, although the spec-modelled calendar month contains it. -/
theorem monthly_report_excludes_last_day_after_midnight :
    specCalendarMonthContains c8Query c8Ticket = true ∧
    monthlyTickets c8Store c8Query = [] ∧
    (generateMonthlyReport c8Store c8Query).summary.total_tickets = 0 ∧
    (generateMonthlyReport c8Store c8Query).category_breakdown = [] ∧
    monthlyEnd c8Query = minutesAt 2024 1 31 0 0 := by
  decide

/-- C9 counterexample: the claim says the rounded percentages sum to
exactly 100 within the customer-category family.  With three tickets in
three distinct categories each row carries 33.33 and the family sums to
99.99. -/
theorem issue_type_rounded_sum_below_100 :
    ((getIssueTypeAnalysis c9Store 0 200).take 3).map IssueTypeStats.issue_type =
      ["broadband", "dedicated", "reseller"] ∧
    (((getIssueTypeAnalysis c9Store 0 200).take 3).map IssueTypeStats.percentage).sum = 9999 / 100 ∧
    (9999 / 100 : ℚ) ≠ 100 := by
  have hp : pctOf (rangeTickets c9Store 0 200).length 1 = 3333 / 100 := by
    have hlen : (rangeTickets c9Store 0 200).length = 3 := by decide
    rw [hlen]
    unfold pctOf round2
    norm_num [round_eq]
  refine ⟨by decide, ?_, by norm_num⟩
  have hrows : ((getIssueTypeAnalysis c9Store 0 200).take 3).map IssueTypeStats.percentage =
      [pctOf (rangeTickets c9Store 0 200).length 1,
       pctOf (rangeTickets c9Store 0 200).length 1,
       pctOf (rangeTickets c9Store 0 200).length 1] := by
    rfl
  rw [hrows, hp]
  norm_num

/-- C9 (amended): within each breakdown family of getIssueTypeAnalysis the
percentages as computed before the two-decimal rounding — count over total
times 100 — sum to exactly 100 whenever the range holds at least one
ticket (the rounded values the handler returns can fall short, as the
counterexample shows), and a range holding no ticket yields the empty
sequence. -/
theorem issue_type_unrounded_family_sums (s : Store) (a b : Int) :
    (0 < (rangeTickets s a b).length →
      ((issueCategoryRows s a b).map
        (fun r => (r.2 : ℚ) / (rangeTickets s a b).length * 100)).sum = 100 ∧
      ((issuePriorityRows s a b).map
        (fun r => (r.2 : ℚ) / (rangeTickets s a b).length * 100)).sum = 100) ∧
    ((rangeTickets s a b).length = 0 → getIssueTypeAnalysis s a b = []) := by
  constructor
  · intro h
    have hL : ((rangeTickets s a b).length : ℚ) ≠ 0 :=
      Nat.cast_ne_zero.mpr (Nat.pos_iff_ne_zero.mp h)
    constructor
    · unfold issueCategoryRows
      rw [(List.Perm.map (fun r : String × Nat =>
            (r.2 : ℚ) / (rangeTickets s a b).length * 100)
          (sortByCountDesc_perm _)).sum_eq, List.map_map]
      rw [sum_map_filter_nonzero CustomerCategory.all
        (fun c => categoryCount (rangeTickets s a b) c) _
        (by intro c hc; simp [Function.comp, hc])]
      have hpart : ((categoryCount (rangeTickets s a b) .broadband : ℚ) +
          categoryCount (rangeTickets s a b) .dedicated +
          categoryCount (rangeTickets s a b) .reseller) =
          ((rangeTickets s a b).length : ℚ) := by
        exact_mod_cast categoryCount_partition (rangeTickets s a b)
      simp only [CustomerCategory.all, List.map_cons, List.map_nil, List.sum_cons,
        List.sum_nil, Function.comp]
      field_simp
      linear_combination 100 * hpart
    · unfold issuePriorityRows
      rw [(List.Perm.map (fun r : String × Nat =>
            (r.2 : ℚ) / (rangeTickets s a b).length * 100)
          (sortByCountDesc_perm _)).sum_eq, List.map_map]
      rw [sum_map_filter_nonzero IssuePriority.all
        (fun p => priorityCount (rangeTickets s a b) p) _
        (by intro p hp; simp [Function.comp, hp])]
      have hpart : ((priorityCount (rangeTickets s a b) .Low : ℚ) +
          priorityCount (rangeTickets s a b) .Medium +
          priorityCount (rangeTickets s a b) .High +
          priorityCount (rangeTickets s a b) .Critical) =
          ((rangeTickets s a b).length : ℚ) := by
        exact_mod_cast priorityCount_partition (rangeTickets s a b)
      simp only [IssuePriority.all, List.map_cons, List.map_nil, List.sum_cons,
        List.sum_nil, Function.comp]
      field_simp
      linear_combination 100 * hpart
  · intro h
    have hts : rangeTickets s a b = [] := List.length_eq_zero.mp h
    unfold getIssueTypeAnalysis issueCategoryRows issuePriorityRows
    simp [hts, categoryCount, priorityCount, CustomerCategory.all, IssuePriority.all,
      sortByCountDesc]

/-- Witness for C9 at a concrete range holding three tickets: the
unrounded category percentages sum to exactly 100. -/
theorem issue_type_unrounded_family_sums_witness :
    0 < (rangeTickets c9Store 0 200).length ∧
    ((issueCategoryRows c9Store 0 200).map
      (fun r => (r.2 : ℚ) / (rangeTickets c9Store 0 200).length * 100)).sum = 100 :=
  ⟨by decide, ((issue_type_unrounded_family_sums c9Store 0 200).1 (by decide)).1⟩

/-- C10: assignTicket checks only that the assigned_by user exists, not
that the user is active, and transferTicketToTeam likewise checks only
existence of transferred_by: with the ticket present and the other
preconditions satisfied, an existing user whose is_active is false
successfully performs a team assignment and a team transfer. -/
theorem inactive_actor_can_assign_and_transfer (s : Store) (now : Int)
    (input : AssignTicketInput) (team : UserRole) (tk : Ticket) (a : User)
    (hto : input.assigned_to = none)
    (hfind : s.tickets.find? (fun t => t.id == input.ticket_id) = some tk)
    (ha : s.users.find? (fun u => u.id == input.assigned_by) = some a)
    (_hinactive : a.is_active = false) :
    (assignTicket s now input).ret = .ok (some (applyStaged tk
      { assigned_to := some input.assigned_to
        assigned_team := some (some input.assigned_team)
        updated_at := some now })) ∧
    (transferTicketToTeam s now input.ticket_id team.toDb input.assigned_by).ret =
      .ok (some (applyStaged tk
        { assigned_to := some none
          assigned_team := some (some team)
          updated_at := some now })) := by
  constructor
  · unfold assignTicket
    rw [hfind, ha]
    have hbad : (jsTruthyNat input.assigned_to &&
        (s.users.find? (fun u => u.id == input.assigned_to.getD 0 &&
          u.role == input.assigned_team && u.is_active)).isNone) = false := by
      rw [hto]
      rfl
    simp only [hbad, Bool.false_eq_true, if_false]
    conv_lhs => rw [hto]
    rfl
  · unfold transferTicketToTeam
    rw [UserRole.fromDb_toDb, hfind, ha]

/-- Witness for C10: user 3 is inactive, yet assigns ticket 1 to team NOC
and transfers it to team NOC. -/
theorem inactive_actor_can_assign_and_transfer_witness :
    (assignTicket c10Store 10 c10Input).ret = .ok (some (applyStaged baseTicket
      { assigned_to := some none
        assigned_team := some (some UserRole.NOC)
        updated_at := some 10 })) ∧
    (transferTicketToTeam c10Store 10 1 "NOC" 3).ret = .ok (some (applyStaged baseTicket
      { assigned_to := some none
        assigned_team := some (some UserRole.NOC)
        updated_at := some 10 })) :=
  inactive_actor_can_assign_and_transfer c10Store 10 c10Input .NOC baseTicket
    userInactiveTSO (by decide) (by decide) (by decide) (by decide)
